import Mathlib

/-!
Shallow embedding of the pulsecheckpoint-runtime core:
the checkpoint manager (runtime/src/checkpoint/mod.rs), the worker
registry (runtime/src/worker/mod.rs) and the status-mapping glue of the
RPC surface (runtime/src/api/mod.rs).

Concurrent maps (DashMap) are modelled as association lists with
replace-on-insert semantics; wall-clock instants are modelled as natural
numbers supplied by the caller; the storage adapter is modelled as a
record of pure state-passing functions.
-/

deriving instance DecidableEq for Except

namespace PulseCheckpoint

/-- Lookup in an association list; first binding wins, matching a map read. -/
def lookupA {α : Type} : List (String × α) → String → Option α
  | [], _ => none
  | (k, v) :: rest, key => if k = key then some v else lookupA rest key

/-- Remove every binding of a key, used to model replace-on-insert and removal. -/
def eraseA {α : Type} : List (String × α) → String → List (String × α)
  | [], _ => []
  | (k, v) :: rest, key => if k = key then eraseA rest key else (k, v) :: eraseA rest key

/-- Insert with replacement, matching DashMap::insert. -/
def insertA {α : Type} (l : List (String × α)) (key : String) (v : α) : List (String × α) :=
  (key, v) :: eraseA l key

/-- Remove a binding, returning the removed value, matching DashMap::remove. -/
def removeA {α : Type} (l : List (String × α)) (key : String) : Option (α × List (String × α)) :=
  match lookupA l key with
  | none => none
  | some v => some (v, eraseA l key)

namespace Sha256

/-! SHA-256, modelling the sha2 crate used by compute_sha256. Machine
words are naturals reduced modulo 2^32 at every arithmetic step. -/

def M32 : Nat := 4294967296

def rotr (n x : Nat) : Nat := ((x >>> n) ||| (x <<< (32 - n))) % M32

def bsig0 (x : Nat) : Nat := (rotr 2 x) ^^^ (rotr 13 x) ^^^ (rotr 22 x)

def bsig1 (x : Nat) : Nat := (rotr 6 x) ^^^ (rotr 11 x) ^^^ (rotr 25 x)

def ssig0 (x : Nat) : Nat := (rotr 7 x) ^^^ (rotr 18 x) ^^^ (x >>> 3)

def ssig1 (x : Nat) : Nat := (rotr 17 x) ^^^ (rotr 19 x) ^^^ (x >>> 10)

def ch (x y z : Nat) : Nat := (x &&& y) ^^^ ((x ^^^ 4294967295) &&& z)

def maj (x y z : Nat) : Nat := (x &&& y) ^^^ (x &&& z) ^^^ (y &&& z)

/-- The 64 round constants of FIPS 180-4, in decimal. -/
def K : List Nat :=
  [1116352408, 1899447441, 3049323471, 3921009573, 961987163,
   1508970993, 2453635748, 2870763221, 3624381080, 310598401,
   607225278, 1426881987, 1925078388, 2162078206, 2614888103,
   3248222580, 3835390401, 4022224774, 264347078, 604807628,
   770255983, 1249150122, 1555081692, 1996064986, 2554220882,
   2821834349, 2952996808, 3210313671, 3336571891, 3584528711,
   113926993, 338241895, 666307205, 773529912, 1294757372,
   1396182291, 1695183700, 1986661051, 2177026350, 2456956037,
   2730485921, 2820302411, 3259730800, 3345764771, 3516065817,
   3600352804, 4094571909, 275423344, 430227734, 506948616,
   659060556, 883997877, 958139571, 1322822218, 1537002063,
   1747873779, 1955562222, 2024104815, 2227730452, 2361852424,
   2428436474, 2756734187, 3204031479, 3329325298]

/-- The eight initial hash words of FIPS 180-4, in decimal. -/
def H0 : List Nat :=
  [1779033703, 3144134277, 1013904242, 2773480762, 1359893119,
   2600822924, 528734635, 1541459225]

/-- Big-endian byte decomposition of a value into a fixed number of bytes. -/
def bytesBE : Nat → Nat → List Nat
  | 0, _ => []
  | n + 1, v => bytesBE n (v / 256) ++ [v % 256]

/-- Standard SHA-256 padding: 0x80, zero fill to 56 mod 64, 64-bit bit length. -/
def pad (msg : List Nat) : List Nat :=
  let len := msg.length
  let zeros := (64 - ((len + 9) % 64)) % 64
  msg ++ [128] ++ List.replicate zeros 0 ++ bytesBE 8 (len * 8)

/-- Group bytes into big-endian 32-bit words. -/
def words32 : List Nat → List Nat
  | a :: b :: c :: d :: rest => (((a * 256 + b) * 256 + c) * 256 + d) :: words32 rest
  | _ => []

/-- Extend the message schedule; the accumulator keeps the newest word first. -/
def schedRev : Nat → List Nat → List Nat
  | 0, acc => acc
  | n + 1, acc =>
    let v := (ssig1 (acc.getD 1 0) + acc.getD 6 0 + ssig0 (acc.getD 14 0) + acc.getD 15 0) % M32
    schedRev n (v :: acc)

/-- The 64-word message schedule of one block. -/
def schedule (block : List Nat) : List Nat :=
  (schedRev 48 block.reverse).reverse

/-- One compression round. -/
def step (st : Nat × Nat × Nat × Nat × Nat × Nat × Nat × Nat) (kw : Nat × Nat) :
    Nat × Nat × Nat × Nat × Nat × Nat × Nat × Nat :=
  match st, kw with
  | (a, b, c, d, e, f, g, h), (kv, wv) =>
    let t1 := (h + bsig1 e + ch e f g + kv + wv) % M32
    let t2 := (bsig0 a + maj a b c) % M32
    ((t1 + t2) % M32, a, b, c, (d + t1) % M32, e, f, g)

/-- Compress one 16-word block into the running hash state. -/
def compress (hs : List Nat) (block : List Nat) : List Nat :=
  let w := schedule block
  let a := hs.getD 0 0
  let b := hs.getD 1 0
  let c := hs.getD 2 0
  let d := hs.getD 3 0
  let e := hs.getD 4 0
  let f := hs.getD 5 0
  let g := hs.getD 6 0
  let h := hs.getD 7 0
  match (K.zip w).foldl step (a, b, c, d, e, f, g, h) with
  | (a1, b1, c1, d1, e1, f1, g1, h1) =>
    [(a + a1) % M32, (b + b1) % M32, (c + c1) % M32, (d + d1) % M32,
     (e + e1) % M32, (f + f1) % M32, (g + g1) % M32, (h + h1) % M32]

/-- Split a word list into 16-word blocks; the padded input is always exact. -/
def blocks : List Nat → List (List Nat)
  | w0 :: w1 :: w2 :: w3 :: w4 :: w5 :: w6 :: w7 ::
    w8 :: w9 :: w10 :: w11 :: w12 :: w13 :: w14 :: w15 :: rest =>
    [w0, w1, w2, w3, w4, w5, w6, w7, w8, w9, w10, w11, w12, w13, w14, w15] :: blocks rest
  | _ => []

/-- The 32-byte SHA-256 digest of a byte list. -/
def digest (msg : List Nat) : List Nat :=
  let hs := (blocks (words32 (pad msg))).foldl compress H0
  hs.foldr (fun w acc => bytesBE 4 w ++ acc) []

end Sha256

/-- Lowercase hex digit. -/
def hexDigit (n : Nat) : Char := if n < 10 then Char.ofNat (48 + n) else Char.ofNat (87 + n)

/-- Two lowercase hex characters of one byte. -/
def byteToHex (b : Nat) : List Char := [hexDigit (b / 16), hexDigit (b % 16)]

/-- Model of compute_sha256 in checkpoint/mod.rs: lowercase hex SHA-256. -/
def compute_sha256 (data : List Nat) : String :=
  String.mk ((Sha256.digest data).foldr (fun b acc => byteToHex b ++ acc) [])

/-- The byte list of an ASCII string, for concrete test inputs. -/
def asciiBytes (s : String) : List Nat := s.toList.map Char.toNat

/-- CheckpointStatus from the pulse.v1 protobuf surface. -/
inductive CheckpointStatus
  | unspecified
  | uploading
  | completed
  | failed
  | deleted
deriving DecidableEq

/-- StorageError from storage/mod.rs. -/
inductive StorageError
  | s3Error (msg : String)
  | notFound (key : String)
  | uploadFailed (msg : String)
  | downloadFailed (msg : String)
  | deleteFailed (msg : String)
  | configError (msg : String)
deriving DecidableEq

/-- The thiserror display string of a StorageError. -/
def storageErrorMessage : StorageError → String
  | .s3Error m => "S3 client error: " ++ m
  | .notFound k => "Object not found: " ++ k
  | .uploadFailed m => "Upload failed after retries: " ++ m
  | .downloadFailed m => "Download failed: " ++ m
  | .deleteFailed m => "Delete failed: " ++ m
  | .configError m => "Invalid configuration: " ++ m

/-- CheckpointError from checkpoint/mod.rs. -/
inductive CheckpointError
  | storageError (e : StorageError)
  | notFound (id : String)
  | invalidData (msg : String)
  | workerNotRegistered (id : String)
  | idempotentDuplicate (key : String)
  | uploadFailed (msg : String)
deriving DecidableEq

/-- The Checkpoint record of checkpoint/mod.rs. -/
structure Checkpoint where
  id : String
  worker_id : String
  storage_path : String
  size_bytes : Nat
  checksum : String
  metadata : List (String × String)
  created_at : Nat
  status : CheckpointStatus
deriving DecidableEq

/-- The two concurrent maps owned by CheckpointManager. -/
structure ManagerState where
  checkpoints : List (String × Checkpoint)
  idempotency_keys : List (String × String)
deriving DecidableEq

/-- The Storage trait of storage/mod.rs as pure state-passing functions
over an adapter state of type sigma. -/
structure StorageModel (σ : Type) where
  upload : σ → String → List Nat → σ × Except StorageError String
  download : σ → String → σ × Except StorageError (List Nat)
  delete : σ → String → σ × Except StorageError Unit

/-- Transient versus permanent classification of a retry failure. -/
inductive RetryClass
  | transient
  | permanent
deriving DecidableEq

/-- Failure classification in upload_with_retry: permanent exactly when
the attempt counter has reached max_attempts. -/
def classify_failure (attempt max_attempts : Nat) : RetryClass :=
  if attempt ≥ max_attempts then .permanent else .transient

/-- The retry loop body of upload_with_retry. Each iteration increments
the attempt counter, tries one upload, and stops on success or on a
failure classified permanent. The fuel argument is a strict upper bound
on the number of iterations, standing in for the 60 second wall-clock
ceiling that the untimed model cannot express; with fuel above
max_attempts the attempt bound always fires first, so the fuel branch is
unreachable. Returns the adapter state, the attempts made, and the result. -/
def retryGo {σ : Type} (st : StorageModel σ) (max_attempts : Nat) (key : String)
    (data : List Nat) : Nat → Nat → σ → σ × Nat × Except StorageError String
  | 0, attempt, s => (s, attempt, .error (.uploadFailed "retry budget exhausted"))
  | fuel + 1, attempt, s =>
    let att := attempt + 1
    match st.upload s key data with
    | (s1, .ok path) => (s1, att, .ok path)
    | (s1, .error e) =>
      match classify_failure att max_attempts with
      | .permanent => (s1, att, .error e)
      | .transient => retryGo st max_attempts key data fuel att s1

/-- upload_with_retry of checkpoint/mod.rs: run the loop from attempt 0
and wrap any final failure as CheckpointError.uploadFailed. -/
def upload_with_retry {σ : Type} (st : StorageModel σ) (max_attempts : Nat) (key : String)
    (data : List Nat) (s : σ) : σ × Nat × Except CheckpointError String :=
  match retryGo st max_attempts key data (max_attempts + 1) 0 s with
  | (s1, att, r) => (s1, att, r.mapError fun e => .uploadFailed (storageErrorMessage e))

/-- The checkpoint id assembled in save: chk_ plus the first 12 chars of
the dash-free UUIDv4 hex. -/
def mk_checkpoint_id (uuid_hex : String) : String := "chk_" ++ uuid_hex.take 12

/-- The storage key assembled in save, with the UTC date segment supplied
by the caller as date_path. -/
def mk_storage_key (worker_id date_path checkpoint_id : String) : String :=
  "checkpoints/" ++ worker_id ++ "/" ++ date_path ++ "/" ++ checkpoint_id ++ ".bin"

/-- The pending record save inserts before uploading: empty storage path,
status UPLOADING. -/
def pending_checkpoint (worker_id : String) (data : List Nat)
    (metadata : List (String × String)) (checkpoint_id : String) (now : Nat) : Checkpoint :=
  { id := checkpoint_id
    worker_id := worker_id
    storage_path := ""
    size_bytes := data.length
    checksum := compute_sha256 data
    metadata := metadata
    created_at := now
    status := .uploading }

/-- The idempotency fast path at the top of save: a checkpoint is
returned early exactly when a key is supplied, bound, and the bound id is
still present in the checkpoints map. -/
def save_hit (m : ManagerState) : Option String → Option Checkpoint
  | some key =>
    match lookupA m.idempotency_keys key with
    | some existing_id => lookupA m.checkpoints existing_id
    | none => none
  | none => none

/-- The body of save after the idempotency check: generate the id, insert
the pending record, upload with retry, and on success mark the record
COMPLETED and insert the idempotency binding. The generated UUID hex, the
UTC date segment and the current instant are passed in by the caller. -/
def save_fresh {σ : Type} (st : StorageModel σ) (max_attempts : Nat) (m : ManagerState)
    (s : σ) (worker_id : String) (data : List Nat) (metadata : List (String × String))
    (idempotency_key : Option String) (uuid_hex date_path : String) (now : Nat) :
    ManagerState × σ × Except CheckpointError Checkpoint :=
  let checkpoint_id := mk_checkpoint_id uuid_hex
  let storage_key := mk_storage_key worker_id date_path checkpoint_id
  let pending := pending_checkpoint worker_id data metadata checkpoint_id now
  let m1 : ManagerState := { m with checkpoints := insertA m.checkpoints checkpoint_id pending }
  match upload_with_retry st max_attempts storage_key data s with
  | (s1, _, .error e) => (m1, s1, .error e)
  | (s1, _, .ok storage_path) =>
    let completed := { pending with storage_path := storage_path, status := .completed }
    let m2 : ManagerState := { m1 with checkpoints := insertA m1.checkpoints checkpoint_id completed }
    let m3 : ManagerState :=
      match idempotency_key with
      | some key => { m2 with idempotency_keys := insertA m2.idempotency_keys key checkpoint_id }
      | none => m2
    (m3, s1, .ok completed)

/-- CheckpointManager::save. -/
def save {σ : Type} (st : StorageModel σ) (max_attempts : Nat) (m : ManagerState)
    (s : σ) (worker_id : String) (data : List Nat) (metadata : List (String × String))
    (idempotency_key : Option String) (uuid_hex date_path : String) (now : Nat) :
    ManagerState × σ × Except CheckpointError Checkpoint :=
  match save_hit m idempotency_key with
  | some cp => (m, s, .ok cp)
  | none => save_fresh st max_attempts m s worker_id data metadata idempotency_key uuid_hex date_path now

/-- Rust str::strip_prefix on character lists. -/
def stripPrefixChars : List Char → List Char → Option (List Char)
  | [], s => some s
  | _, [] => none
  | p :: ps, c :: cs => if c = p then stripPrefixChars ps cs else none

/-- Rust str::split_once on character lists, keeping both sides. -/
def splitOnceChars (sep : Char) : List Char → Option (List Char × List Char)
  | [] => none
  | c :: cs =>
    if c = sep then some ([], cs)
    else
      match splitOnceChars sep cs with
      | none => none
      | some (a, b) => some (c :: a, b)

/-- The storage-key recovery used by get_data and delete: strip the
s3:// scheme, then drop the bucket segment up to the first slash. -/
def storage_key_of_path (path : String) : Option String :=
  match stripPrefixChars "s3://".toList path.toList with
  | none => none
  | some rest =>
    match splitOnceChars '/' rest with
    | none => none
    | some (_, key) => some (String.mk key)

/-- CheckpointManager::get. -/
def get (m : ManagerState) (checkpoint_id : String) : Option Checkpoint :=
  lookupA m.checkpoints checkpoint_id

/-- CheckpointManager::get_data: resolve, recover the storage key,
download, verify the SHA-256 checksum, and return the bytes. -/
def get_data {σ : Type} (st : StorageModel σ) (m : ManagerState) (s : σ)
    (checkpoint_id : String) : σ × Except CheckpointError (List Nat) :=
  match lookupA m.checkpoints checkpoint_id with
  | none => (s, .error (.notFound checkpoint_id))
  | some cp =>
    match storage_key_of_path cp.storage_path with
    | none => (s, .error (.invalidData "Invalid storage path"))
    | some storage_key =>
      match st.download s storage_key with
      | (s1, .error e) => (s1, .error (.storageError e))
      | (s1, .ok data) =>
        if compute_sha256 data ≠ cp.checksum then (s1, .error (.invalidData "Checksum mismatch"))
        else (s1, .ok data)

/-- CheckpointManager::delete: remove the metadata record first, then
invoke the adapter delete only when the storage path parses. -/
def delete {σ : Type} (st : StorageModel σ) (m : ManagerState) (s : σ)
    (checkpoint_id : String) : ManagerState × σ × Except CheckpointError Unit :=
  match removeA m.checkpoints checkpoint_id with
  | none => (m, s, .error (.notFound checkpoint_id))
  | some (cp, rest) =>
    let m1 : ManagerState := { m with checkpoints := rest }
    match storage_key_of_path cp.storage_path with
    | none => (m1, s, .ok ())
    | some storage_key =>
      match st.delete s storage_key with
      | (s1, .error e) => (m1, s1, .error (.storageError e))
      | (s1, .ok _) => (m1, s1, .ok ())

/-- WorkerStatus of the pulse.v1 protobuf surface. -/
inductive WorkerStatus
  | unspecified
  | active
  | unhealthy
  | draining
  | stopped
deriving DecidableEq

/-- The Worker record of worker/mod.rs. -/
structure Worker where
  id : String
  metadata : List (String × String)
  status : WorkerStatus
  registered_at : Nat
  last_heartbeat : Nat
deriving DecidableEq

/-- Worker::new: ACTIVE with both instants set to the same now. -/
def Worker.new (id : String) (metadata : List (String × String)) (now : Nat) : Worker :=
  { id := id
    metadata := metadata
    status := .active
    registered_at := now
    last_heartbeat := now }

/-- WorkerError of worker/mod.rs. -/
inductive WorkerError
  | notFound (id : String)
  | alreadyExists (id : String)
  | invalidWorkerId (msg : String)
deriving DecidableEq

/-- The worker map owned by WorkerRegistry. -/
abbrev Registry := List (String × Worker)

/-- WorkerRegistry::register. -/
def register (r : Registry) (worker_id : String) (metadata : List (String × String))
    (now : Nat) : Registry × Except WorkerError Worker :=
  if worker_id = "" then (r, .error (.invalidWorkerId "Worker ID cannot be empty"))
  else
    let worker := Worker.new worker_id metadata now
    if (lookupA r worker_id).isSome then (r, .error (.alreadyExists worker_id))
    else (insertA r worker_id worker, .ok worker)

/-- WorkerRegistry::heartbeat: refresh last_heartbeat, and overwrite the
status whenever one is supplied. -/
def heartbeat (r : Registry) (worker_id : String) (status : Option WorkerStatus)
    (now : Nat) : Registry × Except WorkerError Unit :=
  match lookupA r worker_id with
  | some w =>
    let w1 := { w with last_heartbeat := now }
    let w2 :=
      match status with
      | some s => { w1 with status := s }
      | none => w1
    (insertA r worker_id w2, .ok ())
  | none => (r, .error (.notFound worker_id))

/-- Modelled from the spec: the numeric values of the pulse.v1
WorkerStatus protobuf enum. The .proto file is not under src/; the spec
lists the variants ACTIVE, UNHEALTHY, DRAINING, STOPPED, UNSPECIFIED and
the surface compares the wire field against UNSPECIFIED as the i32
default, which in protobuf is 0, so UNSPECIFIED = 0 and the named
variants follow in order. -/
def workerStatusToI32 : WorkerStatus → Int
  | .unspecified => 0
  | .active => 1
  | .unhealthy => 2
  | .draining => 3
  | .stopped => 4

/-- Modelled from the spec: the prost-generated TryFrom on the wire
integer, defined only at the values of workerStatusToI32. -/
def workerStatusTryFrom (n : Int) : Option WorkerStatus :=
  if n = 0 then some .unspecified
  else if n = 1 then some .active
  else if n = 2 then some .unhealthy
  else if n = 3 then some .draining
  else if n = 4 then some .stopped
  else none

/-- The status argument computed by PulseServiceImpl::heartbeat: a zero
wire status becomes none, any other value is converted and falls back to
ACTIVE when the conversion fails. -/
def heartbeat_status_arg (req_status : Int) : Option WorkerStatus :=
  if req_status ≠ workerStatusToI32 .unspecified then
    some ((workerStatusTryFrom req_status).getD .active)
  else none

/-- The heartbeat RPC path: surface conversion then registry heartbeat. -/
def surface_heartbeat (r : Registry) (worker_id : String) (req_status : Int)
    (now : Nat) : Registry × Except WorkerError Unit :=
  heartbeat r worker_id (heartbeat_status_arg req_status) now

/-- A functional in-memory adapter: a key to bytes map, uploads always
succeed and return the s3 URI over the given bucket. -/
def listStore (bucket : String) : StorageModel (List (String × List Nat)) :=
  { upload := fun s key data => (insertA s key data, .ok ("s3://" ++ bucket ++ "/" ++ key))
    download := fun s key =>
      (s, match lookupA s key with
          | some d => .ok d
          | none => .error (.notFound key))
    delete := fun s key => (eraseA s key, .ok ()) }

/-- An always-failing adapter whose state counts the upload calls. -/
def failStore (msg : String) : StorageModel Nat :=
  { upload := fun s _ _ => (s + 1, .error (.uploadFailed msg))
    download := fun s _ => (s, .error (.downloadFailed msg))
    delete := fun s _ => (s, .error (.deleteFailed msg)) }

/-- Reading back the key just inserted yields the inserted value. -/
theorem lookupA_insertA_self {α : Type} (l : List (String × α)) (key : String) (v : α) :
    lookupA (insertA l key v) key = some v := by
  simp [insertA, lookupA]

/-- An erased key is no longer found. -/
theorem lookupA_eraseA_self {α : Type} (l : List (String × α)) (key : String) :
    lookupA (eraseA l key) key = none := by
  induction l with
  | nil => rfl
  | cons p rest ih =>
    by_cases h : p.1 = key
    · simpa [eraseA, h] using ih
    · simpa [eraseA, lookupA, h] using ih

/-- Erasure preserves a pointwise boolean property of the records. -/
theorem all_eraseA {α : Type} (l : List (String × α)) (key : String)
    (f : String × α → Bool) (h : l.all f = true) : (eraseA l key).all f = true := by
  induction l with
  | nil => rfl
  | cons p rest ih =>
    rw [List.all_cons, Bool.and_eq_true] at h
    by_cases hk : p.1 = key
    · simpa [eraseA, hk] using ih h.2
    · simp [eraseA, hk, List.all_cons, h.1, ih h.2]

/-- A missing key makes removeA fail. -/
theorem removeA_eq_none {α : Type} (l : List (String × α)) (key : String)
    (h : lookupA l key = none) : removeA l key = none := by
  unfold removeA
  rw [h]

/-- A present key makes removeA return the value and the erased list. -/
theorem removeA_eq_some {α : Type} (l : List (String × α)) (key : String) (v : α)
    (h : lookupA l key = some v) : removeA l key = some (v, eraseA l key) := by
  unfold removeA
  rw [h]

/-- Stripping the scheme off a well-formed URI over the fixed test bucket. -/
theorem stripPrefixChars_scheme (l : List Char) :
    stripPrefixChars "s3://".toList
      ('s' :: '3' :: ':' :: '/' :: '/' :: 'b' :: 'u' :: 'c' :: 'k' :: 'e' :: 't' :: '/' :: l) =
      some ('b' :: 'u' :: 'c' :: 'k' :: 'e' :: 't' :: '/' :: l) := rfl

/-- Splitting the bucket segment off the remainder of the URI. -/
theorem splitOnceChars_bucket (l : List Char) :
    splitOnceChars '/' ('b' :: 'u' :: 'c' :: 'k' :: 'e' :: 't' :: '/' :: l) =
      some (['b', 'u', 'c', 'k', 'e', 't'], l) := rfl

/-- Appending a literal-backed string concatenates the character lists. -/
theorem toList_mk_append (a : List Char) (s : String) :
    (String.mk a ++ s).toList = a ++ s.toList := by
  cases s
  rfl

/-- The URI produced by the listStore adapter parses back to its key. -/
theorem storage_key_of_path_uri (key : String) :
    storage_key_of_path ("s3://" ++ "bucket" ++ "/" ++ key) = some key := by
  have h0 : ("s3://" ++ "bucket" ++ "/" ++ key) =
      String.mk ['s', '3', ':', '/', '/', 'b', 'u', 'c', 'k', 'e', 't', '/'] ++ key := rfl
  rw [h0]
  unfold storage_key_of_path
  rw [toList_mk_append]
  rw [show (['s', '3', ':', '/', '/', 'b', 'u', 'c', 'k', 'e', 't', '/'] ++ key.toList) =
      ('s' :: '3' :: ':' :: '/' :: '/' :: 'b' :: 'u' :: 'c' :: 'k' :: 'e' :: 't' :: '/' :: key.toList)
    from rfl]
  rw [stripPrefixChars_scheme]
  simp only [splitOnceChars_bucket]
  rfl

/-- The listStore adapter succeeds on the first attempt of the retry
loop, storing the blob and returning the bucket URI. -/
theorem upload_with_retry_listStore (bucket key : String) (data : List Nat)
    (max_attempts : Nat) (s : List (String × List Nat)) :
    upload_with_retry (listStore bucket) max_attempts key data s =
      (insertA s key data, 1, Except.ok ("s3://" ++ bucket ++ "/" ++ key)) := by
  simp [upload_with_retry, retryGo, listStore, Except.mapError]

/-! Concrete scenario states used by counterexamples and witnesses. -/

/-- An empty manager. -/
def mEmpty : ManagerState := { checkpoints := [], idempotency_keys := [] }

/-- A checkpoint stuck in UPLOADING, bound to idempotency key k in c1_m. -/
def c1_cpU : Checkpoint :=
  { id := "c1", worker_id := "w", storage_path := "", size_bytes := 1, checksum := "x",
    metadata := [], created_at := 0, status := .uploading }

/-- A manager whose idempotency key k is bound to the UPLOADING checkpoint c1. -/
def c1_m : ManagerState :=
  { checkpoints := [("c1", c1_cpU)], idempotency_keys := [("k", "c1")] }

/-- C1: the claim requires save to return IdempotentDuplicate when the
bound checkpoint is UPLOADING; at this concrete state save instead
returns the UPLOADING checkpoint itself, and never that error. -/
theorem C1_counterexample :
    (save (failStore "boom") 3 c1_m 0 "w" [65] [] (some "k") "deadbeefdead" "2026/10/12" 5).2.2 =
      Except.ok c1_cpU ∧
    c1_cpU.status = CheckpointStatus.uploading ∧
    (save (failStore "boom") 3 c1_m 0 "w" [65] [] (some "k") "deadbeefdead" "2026/10/12" 5).2.2 ≠
      Except.error (CheckpointError.idempotentDuplicate "k") := by
  decide

/-- C1 amended: when the idempotency key is bound, save returns the bound
checkpoint unchanged whatever its status (including UPLOADING), and when
the bound checkpoint is gone it does not return IdempotentDuplicate but
proceeds as a fresh save (new upload, new record, and on success the key
is rebound to the new checkpoint id). -/
theorem C1_idempotent_save_behavior {σ : Type} (st : StorageModel σ) (max_attempts : Nat)
    (m : ManagerState) (s : σ) (worker_id : String) (data : List Nat)
    (metadata : List (String × String)) (key bound_id uuid_hex date_path : String) (now : Nat)
    (hbind : lookupA m.idempotency_keys key = some bound_id) :
    save st max_attempts m s worker_id data metadata (some key) uuid_hex date_path now =
      match lookupA m.checkpoints bound_id with
      | some cp => (m, s, Except.ok cp)
      | none =>
        save_fresh st max_attempts m s worker_id data metadata (some key) uuid_hex date_path now := by
  simp only [save, save_hit, hbind]

/-- C1 witness: the amended behavior at the concrete UPLOADING state. -/
theorem C1_witness :
    save (failStore "w1") 3 c1_m 0 "w" [65] [] (some "k") "deadbeefdead" "2026/10/12" 5 =
      match lookupA c1_m.checkpoints "c1" with
      | some cp => (c1_m, (0 : Nat), Except.ok cp)
      | none => save_fresh (failStore "w1") 3 c1_m 0 "w" [65] [] (some "k") "deadbeefdead" "2026/10/12" 5 :=
  C1_idempotent_save_behavior (failStore "w1") 3 c1_m 0 "w" [65] [] "k" "c1"
    "deadbeefdead" "2026/10/12" 5 (by decide)

/-- C2: at this concrete run with an always-failing adapter and one
allowed attempt, save returns UploadFailed but the inserted record stays
UPLOADING; the claim requires it to be updated to FAILED. -/
theorem C2_counterexample :
    (save (failStore "boom") 1 mEmpty 0 "w" [65] [] none "aaaabbbbccccdddd" "2026/10/12" 7).2.2 =
      Except.error (CheckpointError.uploadFailed "Upload failed after retries: boom") ∧
    (lookupA (save (failStore "boom") 1 mEmpty 0 "w" [65] [] none "aaaabbbbccccdddd" "2026/10/12" 7).1.checkpoints
        "chk_aaaabbbbcccc").map (fun c => c.status) = some CheckpointStatus.uploading ∧
    some CheckpointStatus.uploading ≠ some CheckpointStatus.failed := by
  decide

/-- C2 amended: when the retry loop reports a permanent failure, save
returns the UploadFailed error, but the already-inserted record is left
in status UPLOADING; it is not updated to FAILED, so a record in
UPLOADING remains after save returns. -/
theorem C2_upload_failure_leaves_uploading {σ : Type} (st : StorageModel σ)
    (max_attempts : Nat) (m : ManagerState) (s s1 : σ) (n : Nat) (worker_id : String)
    (data : List Nat) (metadata : List (String × String)) (idempotency_key : Option String)
    (uuid_hex date_path : String) (now : Nat) (emsg : String)
    (hmiss : save_hit m idempotency_key = none)
    (hfail : upload_with_retry st max_attempts
        (mk_storage_key worker_id date_path (mk_checkpoint_id uuid_hex)) data s =
      (s1, n, Except.error (CheckpointError.uploadFailed emsg))) :
    save st max_attempts m s worker_id data metadata idempotency_key uuid_hex date_path now =
      ({ m with checkpoints := (insertA m.checkpoints (mk_checkpoint_id uuid_hex)
          (pending_checkpoint worker_id data metadata (mk_checkpoint_id uuid_hex) now)) },
        s1, Except.error (CheckpointError.uploadFailed emsg)) ∧
    lookupA (insertA m.checkpoints (mk_checkpoint_id uuid_hex)
        (pending_checkpoint worker_id data metadata (mk_checkpoint_id uuid_hex) now))
      (mk_checkpoint_id uuid_hex) =
      some (pending_checkpoint worker_id data metadata (mk_checkpoint_id uuid_hex) now) ∧
    (pending_checkpoint worker_id data metadata (mk_checkpoint_id uuid_hex) now).status =
      CheckpointStatus.uploading := by
  refine ⟨?_, lookupA_insertA_self _ _ _, rfl⟩
  simp only [save, hmiss, save_fresh]
  rw [hfail]

/-- C2 witness: the amended behavior at the concrete failing run. -/
theorem C2_witness :
    save (failStore "boom") 1 mEmpty 0 "w" [66] [] none "aaaabbbbccccdddd" "2026/10/12" 7 =
      ({ mEmpty with checkpoints := (insertA mEmpty.checkpoints (mk_checkpoint_id "aaaabbbbccccdddd")
          (pending_checkpoint "w" [66] [] (mk_checkpoint_id "aaaabbbbccccdddd") 7)) },
        (1 : Nat), Except.error (CheckpointError.uploadFailed "Upload failed after retries: boom")) ∧
    lookupA (insertA mEmpty.checkpoints (mk_checkpoint_id "aaaabbbbccccdddd")
        (pending_checkpoint "w" [66] [] (mk_checkpoint_id "aaaabbbbccccdddd") 7))
      (mk_checkpoint_id "aaaabbbbccccdddd") =
      some (pending_checkpoint "w" [66] [] (mk_checkpoint_id "aaaabbbbccccdddd") 7) ∧
    (pending_checkpoint "w" [66] [] (mk_checkpoint_id "aaaabbbbccccdddd") 7).status =
      CheckpointStatus.uploading :=
  C2_upload_failure_leaves_uploading (failStore "boom") 1 mEmpty 0 1 1 "w" [66] [] none
    "aaaabbbbccccdddd" "2026/10/12" 7 "Upload failed after retries: boom" rfl (by decide)

/-- Step 1 of the C3 scenario: a successful save binds key k1. -/
def c3_step1 : ManagerState × List (String × List Nat) × Except CheckpointError Checkpoint :=
  save (listStore "bucket") 3 mEmpty [] "w" [65] [] (some "k1") "111111111111" "2026/10/12" 1

/-- Step 2 of the C3 scenario: the bound checkpoint is deleted. -/
def c3_step2 : ManagerState × List (String × List Nat) × Except CheckpointError Unit :=
  delete (listStore "bucket") c3_step1.1 c3_step1.2.1 "chk_111111111111"

/-- Step 3 of the C3 scenario: a new save reuses key k1. -/
def c3_step3 : ManagerState × List (String × List Nat) × Except CheckpointError Checkpoint :=
  save (listStore "bucket") 3 c3_step2.1 c3_step2.2.1 "w" [66] [] (some "k1") "222222222222" "2026/10/12" 2

/-- C3: after Delete of the bound checkpoint, a Save with the same key
rebinds it to a new checkpoint id and performs a second upload, so the
binding is not immutable for the process lifetime. -/
theorem C3_counterexample :
    lookupA c3_step1.1.idempotency_keys "k1" = some "chk_111111111111" ∧
    c3_step2.2.2 = Except.ok () ∧
    lookupA c3_step3.1.idempotency_keys "k1" = some "chk_222222222222" ∧
    some "chk_222222222222" ≠ some "chk_111111111111" ∧
    lookupA c3_step3.2.1 "checkpoints/w/2026/10/12/chk_222222222222.bin" = some [66] := by
  decide

/-- C3 amended: as long as the bound checkpoint is still present in the
checkpoints map, a repeated Save with the bound key and any payload
returns that checkpoint with the manager state, the bindings and the
storage state all unchanged, hence with no second upload; once the bound
checkpoint has been deleted, a later Save with the same key uploads again
and rebinds the key to the new checkpoint id. -/
theorem C3_bound_key_returns_without_upload {σ : Type} (st : StorageModel σ)
    (max_attempts : Nat) (m : ManagerState) (s : σ) (worker_id : String) (data : List Nat)
    (metadata : List (String × String)) (key bound_id uuid_hex date_path : String)
    (now : Nat) (cp : Checkpoint)
    (hbind : lookupA m.idempotency_keys key = some bound_id)
    (hcp : lookupA m.checkpoints bound_id = some cp) :
    save st max_attempts m s worker_id data metadata (some key) uuid_hex date_path now =
      (m, s, Except.ok cp) := by
  simp [save, save_hit, hbind, hcp]

/-- The COMPLETED checkpoint produced by step 1 of the C3 scenario. -/
def c3_cp1 : Checkpoint :=
  { pending_checkpoint "w" [65] [] "chk_111111111111" 1 with
    storage_path := "s3://bucket/checkpoints/w/2026/10/12/chk_111111111111.bin",
    status := .completed }

/-- C3 witness: a repeated save with a live binding changes nothing. -/
theorem C3_witness :
    save (listStore "bucket") 3 c3_step1.1 c3_step1.2.1 "w" [67] [] (some "k1")
      "333333333333" "2026/10/12" 9 = (c3_step1.1, c3_step1.2.1, Except.ok c3_cp1) :=
  C3_bound_key_returns_without_upload (listStore "bucket") 3 c3_step1.1 c3_step1.2.1 "w"
    [67] [] "k1" "chk_111111111111" "333333333333" "2026/10/12" 9 c3_cp1
    (by decide) (by decide)

/-- C4: get_data downloads the blob, recomputes its SHA-256, fails with
InvalidData exactly when the recomputed digest differs from the stored
checksum and returns the downloaded bytes otherwise; and against the
functional in-memory adapter, which returns on download what was
uploaded, a save followed by get_data on the new id returns exactly the
saved payload. -/
theorem C4_get_data_verifies_and_roundtrips {σ : Type} (st : StorageModel σ)
    (m : ManagerState) (s s1 : σ) (id : String) (cp : Checkpoint) (skey : String)
    (data : List Nat) (m2 : ManagerState) (s2 : List (String × List Nat)) (w : String)
    (payload : List Nat) (md : List (String × String)) (uuid_hex date_path : String)
    (now max_attempts : Nat)
    (hcp : lookupA m.checkpoints id = some cp)
    (hkey : storage_key_of_path cp.storage_path = some skey)
    (hdl : st.download s skey = (s1, Except.ok data)) :
    get_data st m s id =
      (s1, if compute_sha256 data = cp.checksum then Except.ok data
           else Except.error (CheckpointError.invalidData "Checksum mismatch")) ∧
    get_data (listStore "bucket")
        (save (listStore "bucket") max_attempts m2 s2 w payload md none uuid_hex date_path now).1
        (save (listStore "bucket") max_attempts m2 s2 w payload md none uuid_hex date_path now).2.1
        (mk_checkpoint_id uuid_hex) =
      ((save (listStore "bucket") max_attempts m2 s2 w payload md none uuid_hex date_path now).2.1,
        Except.ok payload) := by
  constructor
  · simp only [get_data, hcp, hkey, hdl]
    by_cases hck : compute_sha256 data = cp.checksum <;> simp [hck]
  · have hsave : save (listStore "bucket") max_attempts m2 s2 w payload md none uuid_hex date_path now =
        ({ m2 with checkpoints := (insertA
             (insertA m2.checkpoints (mk_checkpoint_id uuid_hex)
               (pending_checkpoint w payload md (mk_checkpoint_id uuid_hex) now))
             (mk_checkpoint_id uuid_hex)
             ({ pending_checkpoint w payload md (mk_checkpoint_id uuid_hex) now with
                storage_path := ("s3://" ++ "bucket" ++ "/" ++
                  mk_storage_key w date_path (mk_checkpoint_id uuid_hex)),
                status := .completed })) },
          insertA s2 (mk_storage_key w date_path (mk_checkpoint_id uuid_hex)) payload,
          Except.ok ({ pending_checkpoint w payload md (mk_checkpoint_id uuid_hex) now with
                storage_path := ("s3://" ++ "bucket" ++ "/" ++
                  mk_storage_key w date_path (mk_checkpoint_id uuid_hex)),
                status := .completed })) := by
      simp only [save, save_hit, save_fresh, upload_with_retry_listStore]
    rw [hsave]
    simp only [get_data, lookupA_insertA_self, storage_key_of_path_uri, listStore,
      pending_checkpoint]
    simp

/-- A COMPLETED record whose stored checksum does not match the blob that
is actually in storage in the c4 scenario. -/
def c4_cp : Checkpoint :=
  { id := "cbad", worker_id := "w", storage_path := "s3://bucket/blobs/cbad.bin",
    size_bytes := 1, checksum := "deadbeef", metadata := [], created_at := 0,
    status := .completed }

/-- The manager of the c4 scenario. -/
def c4_m : ManagerState := { checkpoints := [("cbad", c4_cp)], idempotency_keys := [] }

/-- The adapter state of the c4 scenario: the blob was corrupted to [9]. -/
def c4_s : List (String × List Nat) := [("blobs/cbad.bin", [9])]

/-- C4 witness: the integrity branch and the round trip at concrete
inputs; the stored scenario puts a corrupted blob under a second record. -/
theorem C4_witness :
    get_data (listStore "bucket") c4_m c4_s "cbad" =
      (c4_s, if compute_sha256 [9] = c4_cp.checksum then Except.ok [9]
             else Except.error (CheckpointError.invalidData "Checksum mismatch")) ∧
    get_data (listStore "bucket")
        (save (listStore "bucket") 3 mEmpty [] "w" [1, 2, 3] [] none "feedfacefeedface" "2026/10/12" 4).1
        (save (listStore "bucket") 3 mEmpty [] "w" [1, 2, 3] [] none "feedfacefeedface" "2026/10/12" 4).2.1
        (mk_checkpoint_id "feedfacefeedface") =
      ((save (listStore "bucket") 3 mEmpty [] "w" [1, 2, 3] [] none "feedfacefeedface" "2026/10/12" 4).2.1,
        Except.ok [1, 2, 3]) :=
  C4_get_data_verifies_and_roundtrips (listStore "bucket") c4_m c4_s c4_s "cbad" c4_cp
    "blobs/cbad.bin" [9] mEmpty [] "w" [1, 2, 3] [] "feedfacefeedface" "2026/10/12" 4 3
    (by decide) (by decide) (by decide)

/-- C5: in the retry loop every failure at an attempt strictly below
max_attempts is classified transient and the failure at attempt
max_attempts is classified permanent; with max_attempts equal to 1 an
always-failing adapter makes upload_with_retry report UploadFailed after
exactly one upload call. -/
theorem C5_retry_attempt_classification (max_attempts k : Nat) (key msg : String)
    (data : List Nat) (s : Nat) (hk : k < max_attempts) :
    classify_failure k max_attempts = RetryClass.transient ∧
    classify_failure max_attempts max_attempts = RetryClass.permanent ∧
    upload_with_retry (failStore msg) 1 key data s =
      (s + 1, 1, Except.error (CheckpointError.uploadFailed
        ("Upload failed after retries: " ++ msg))) := by
  refine ⟨?_, ?_, ?_⟩
  · unfold classify_failure
    rw [if_neg (Nat.not_le.mpr hk)]
  · simp [classify_failure]
  · rfl

/-- C5 witness: the classification and the single-attempt failure at
concrete inputs. -/
theorem C5_witness :
    classify_failure 0 1 = RetryClass.transient ∧
    classify_failure 1 1 = RetryClass.permanent ∧
    upload_with_retry (failStore "boom") 1 "key" [1, 2] 0 =
      (0 + 1, 1, Except.error (CheckpointError.uploadFailed
        ("Upload failed after retries: " ++ "boom"))) :=
  C5_retry_attempt_classification 1 0 "key" "boom" [1, 2] 0 (by decide)

/-- The registry invariant of the spec: every record has
last_heartbeat at or after registered_at. -/
def heartbeat_ge_registered (r : Registry) : Bool :=
  r.all fun p => decide (p.2.registered_at ≤ p.2.last_heartbeat)

/-- C6: register rejects the empty id and an already-present id leaving
the registry unchanged, and otherwise inserts a record with status ACTIVE
and registered_at = last_heartbeat = now; the last_heartbeat at or above
registered_at invariant is preserved in every branch. -/
theorem C6_register_semantics (r : Registry) (worker_id : String)
    (md : List (String × String)) (now : Nat)
    (hinv : heartbeat_ge_registered r = true) :
    register r worker_id md now =
      (if worker_id = "" then
        (r, Except.error (WorkerError.invalidWorkerId "Worker ID cannot be empty"))
       else
        match lookupA r worker_id with
        | some _ => (r, Except.error (WorkerError.alreadyExists worker_id))
        | none => (insertA r worker_id (Worker.new worker_id md now),
            Except.ok (Worker.new worker_id md now))) ∧
    heartbeat_ge_registered (register r worker_id md now).1 = true ∧
    (Worker.new worker_id md now).status = WorkerStatus.active ∧
    (Worker.new worker_id md now).registered_at = now ∧
    (Worker.new worker_id md now).last_heartbeat = now := by
  have hreg : register r worker_id md now =
      (if worker_id = "" then
        (r, Except.error (WorkerError.invalidWorkerId "Worker ID cannot be empty"))
       else
        match lookupA r worker_id with
        | some _ => (r, Except.error (WorkerError.alreadyExists worker_id))
        | none => (insertA r worker_id (Worker.new worker_id md now),
            Except.ok (Worker.new worker_id md now))) := by
    unfold register
    by_cases he : worker_id = ""
    · simp [he]
    · cases h : lookupA r worker_id <;> simp [he, h]
  refine ⟨hreg, ?_, rfl, rfl, rfl⟩
  rw [hreg]
  by_cases he : worker_id = ""
  · simpa [he] using hinv
  · cases h : lookupA r worker_id
    · simp only [if_neg he, h]
      show heartbeat_ge_registered (insertA r worker_id (Worker.new worker_id md now)) = true
      simp only [heartbeat_ge_registered, insertA, List.all_cons, Bool.and_eq_true]
      exact ⟨by simp [Worker.new], all_eraseA r worker_id _ hinv⟩
    · simpa [he, h] using hinv

/-- C6 witness: the register branches and the invariant at a concrete
registry. -/
theorem C6_witness :
    register [("a", Worker.new "a" [] 2)] "b" [] 5 =
      (if "b" = "" then
        ([("a", Worker.new "a" [] 2)],
          Except.error (WorkerError.invalidWorkerId "Worker ID cannot be empty"))
       else
        match lookupA [("a", Worker.new "a" [] 2)] "b" with
        | some _ => ([("a", Worker.new "a" [] 2)], Except.error (WorkerError.alreadyExists "b"))
        | none => (insertA [("a", Worker.new "a" [] 2)] "b" (Worker.new "b" [] 5),
            Except.ok (Worker.new "b" [] 5))) ∧
    heartbeat_ge_registered (register [("a", Worker.new "a" [] 2)] "b" [] 5).1 = true ∧
    (Worker.new "b" [] 5).status = WorkerStatus.active ∧
    (Worker.new "b" [] 5).registered_at = 5 ∧
    (Worker.new "b" [] 5).last_heartbeat = 5 :=
  C6_register_semantics [("a", Worker.new "a" [] 2)] "b" [] 5 (by decide)

/-- A registered ACTIVE worker used by the heartbeat scenarios. -/
def c7_w : Worker :=
  { id := "w", metadata := [], status := .active, registered_at := 0, last_heartbeat := 0 }

/-- A registry holding only the ACTIVE worker c7_w. -/
def c7_r : Registry := [("w", c7_w)]

/-- C7: the claim requires a supplied UNSPECIFIED to leave the status
unchanged, but WorkerRegistry::heartbeat overwrites the status with any
supplied value: at this concrete registry a heartbeat carrying
UNSPECIFIED changes an ACTIVE worker to UNSPECIFIED. -/
theorem C7_counterexample :
    (lookupA c7_r "w").map (fun x => x.status) = some WorkerStatus.active ∧
    (lookupA (heartbeat c7_r "w" (some WorkerStatus.unspecified) 5).1 "w").map
      (fun x => x.status) = some WorkerStatus.unspecified ∧
    some WorkerStatus.unspecified ≠ some WorkerStatus.active := by
  decide

/-- C7 amended: on a registered worker heartbeat sets last_heartbeat to
now and overwrites the status with any supplied value, including a
supplied UNSPECIFIED, keeping it only when no status is supplied; on an
unknown id it returns NotFound and changes nothing; the RPC surface maps
a zero wire status to no supplied status, so a status argument of
UNSPECIFIED never reaches the registry through the surface. -/
theorem C7_heartbeat_semantics (r : Registry) (worker_id : String)
    (status : Option WorkerStatus) (now : Nat) (req_status : Int) :
    heartbeat r worker_id status now =
      (match lookupA r worker_id with
       | some w => (insertA r worker_id
           { w with last_heartbeat := now, status := status.getD w.status }, Except.ok ())
       | none => (r, Except.error (WorkerError.notFound worker_id))) ∧
    heartbeat_status_arg req_status ≠ some WorkerStatus.unspecified := by
  constructor
  · unfold heartbeat
    cases h : lookupA r worker_id
    · simp
    · cases status <;> simp [Option.getD]
  · unfold heartbeat_status_arg workerStatusTryFrom workerStatusToI32
    split_ifs <;> simp_all

/-- C8: delete removes the metadata record before the storage call, so
after a delete on a present id the record is gone whatever storage did:
get returns none and a second delete returns NotFound. -/
theorem C8_delete_removes_metadata_first {σ : Type} (st : StorageModel σ)
    (m : ManagerState) (s : σ) (id : String) (cp : Checkpoint)
    (hcp : lookupA m.checkpoints id = some cp) :
    (delete st m s id).1.checkpoints = eraseA m.checkpoints id ∧
    get (delete st m s id).1 id = none ∧
    (delete st (delete st m s id).1 (delete st m s id).2.1 id).2.2 =
      Except.error (CheckpointError.notFound id) := by
  have h1 : removeA m.checkpoints id = some (cp, eraseA m.checkpoints id) :=
    removeA_eq_some _ _ _ hcp
  have hch : (delete st m s id).1.checkpoints = eraseA m.checkpoints id := by
    simp only [delete, h1]
    cases hp : storage_key_of_path cp.storage_path with
    | none => simp [hp]
    | some sk =>
      rcases hd : st.delete s sk with ⟨s1, r⟩
      cases r <;> simp [hp, hd]
  refine ⟨hch, ?_, ?_⟩
  · unfold get
    rw [hch, lookupA_eraseA_self]
  · have h2 : lookupA (delete st m s id).1.checkpoints id = none := by
      rw [hch, lookupA_eraseA_self]
    rcases hD : delete st m s id with ⟨m1, rest⟩
    rw [hD] at h2
    simp [delete, removeA_eq_none _ _ h2]

/-- C8 witness: deletion of a present record at a concrete state. -/
theorem C8_witness :
    (delete (listStore "bucket") c4_m c4_s "cbad").1.checkpoints = eraseA c4_m.checkpoints "cbad" ∧
    get (delete (listStore "bucket") c4_m c4_s "cbad").1 "cbad" = none ∧
    (delete (listStore "bucket") (delete (listStore "bucket") c4_m c4_s "cbad").1
      (delete (listStore "bucket") c4_m c4_s "cbad").2.1 "cbad").2.2 =
      Except.error (CheckpointError.notFound "cbad") :=
  C8_delete_removes_metadata_first (listStore "bucket") c4_m c4_s "cbad" c4_cp (by decide)

/-- C9: when the storage path does not parse as an s3 URI, delete removes
the metadata record and succeeds with the adapter state untouched, so the
adapter delete is never invoked; the pending record save inserts has the
empty storage path, which does not parse. -/
theorem C9_delete_skips_storage_without_uri {σ : Type} (st : StorageModel σ)
    (m : ManagerState) (s : σ) (id : String) (cp : Checkpoint) (w : String)
    (data : List Nat) (md : List (String × String)) (cid : String) (now : Nat)
    (hcp : lookupA m.checkpoints id = some cp)
    (hpath : storage_key_of_path cp.storage_path = none) :
    delete st m s id = ({ m with checkpoints := eraseA m.checkpoints id }, s, Except.ok ()) ∧
    (pending_checkpoint w data md cid now).storage_path = "" ∧
    (pending_checkpoint w data md cid now).status = CheckpointStatus.uploading ∧
    storage_key_of_path "" = none := by
  refine ⟨?_, rfl, rfl, rfl⟩
  simp [delete, removeA_eq_some _ _ _ hcp, hpath]

/-- C9 witness: deleting the UPLOADING record left by the failed save of
the c1 scenario never touches the adapter. -/
theorem C9_witness :
    delete (failStore "boom") c1_m 7 "c1" =
      ({ c1_m with checkpoints := eraseA c1_m.checkpoints "c1" }, (7 : Nat), Except.ok ()) ∧
    (pending_checkpoint "w" [3] [] "chk_x" 2).storage_path = "" ∧
    (pending_checkpoint "w" [3] [] "chk_x" 2).status = CheckpointStatus.uploading ∧
    storage_key_of_path "" = none :=
  C9_delete_skips_storage_without_uri (failStore "boom") c1_m 7 "c1" c1_cpU "w" [3] [] "chk_x" 2
    (by decide) (by decide)

/-- C10: a non-zero wire status with no corresponding WorkerStatus
variant is coerced to ACTIVE by the surface, so the heartbeat RPC sets
the worker status to ACTIVE. -/
theorem C10_malformed_status_coerced_to_active (n : Int) (r : Registry)
    (worker_id : String) (w : Worker) (now : Nat)
    (hn : n ≠ 0) (hmal : workerStatusTryFrom n = none)
    (hw : lookupA r worker_id = some w) :
    heartbeat_status_arg n = some WorkerStatus.active ∧
    (lookupA (surface_heartbeat r worker_id n now).1 worker_id).map (fun x => x.status) =
      some WorkerStatus.active := by
  have harg : heartbeat_status_arg n = some WorkerStatus.active := by
    unfold heartbeat_status_arg workerStatusToI32
    rw [if_pos hn, hmal]
    rfl
  refine ⟨harg, ?_⟩
  unfold surface_heartbeat
  rw [harg]
  unfold heartbeat
  rw [hw]
  simp [lookupA_insertA_self]

/-- C10 witness: the wire value 99 names no variant and yields ACTIVE. -/
theorem C10_witness :
    heartbeat_status_arg 99 = some WorkerStatus.active ∧
    (lookupA (surface_heartbeat c7_r "w" 99 5).1 "w").map (fun x => x.status) =
      some WorkerStatus.active :=
  C10_malformed_status_coerced_to_active 99 c7_r "w" c7_w 5 (by decide) (by decide) (by decide)

end PulseCheckpoint
